import Mathlib

/-!
# Verification of the FinOpenPOS orders/products API routes

Shallow embedding of `src/app/api/orders/route.ts` and
`src/app/api/products/route.ts`.

Modelling conventions:
* JSON values are the inductive `JVal`; machine numbers (JS doubles used only
  for ids, totals, prices, quantities) are modelled as `Rat`. `NaN` is not
  representable; validation failure plays its role (zod's `z.number()`
  rejects `NaN`, so no `NaN` survives validation in the source either).
* The Supabase relational store is a record of tables (lists of rows) plus
  the id counters and the store-assigned `created_at` default.
* Each handler returns the outcome (an HTTP response, or an exception that
  escaped the handler), the resulting store, and the trace of store *table*
  operations it issued (`auth.getUser` is the identity resolver, not a table
  operation, and is not traced).
* Store faults are injected through a `Faults` record: `some msg` makes the
  corresponding insert/select call fail with error message `msg`.
  The compensating deletes in the source ignore their results entirely, so
  deletes are modelled as always applying.
* An unparseable request body is modelled as `none : Option JVal`;
  `request.json()` on it throws, which the orders handler performs outside
  its `try` block and the products handler performs with no `try` at all.
-/

/-- A JSON value. `undefined` does not occur in parsed JSON; an absent
object key plays its role. -/
inductive JVal where
  | num (q : Rat)
  | str (s : String)
  | boolv (b : Bool)
  | nullv
  | arr (xs : List JVal)
  | obj (fields : List (String × JVal))
deriving Repr

/-- Numeric value of a list of decimal digit characters. -/
def digitsVal (cs : List Char) : Nat :=
  cs.foldl (fun a c => a * 10 + (c.toNat - 48)) 0

/-- Parse an unsigned decimal mantissa (digits, optionally a point and more
digits); at least one digit must be present overall. -/
def parseMantissa (cs : List Char) : Option Rat :=
  let intPart := cs.takeWhile (·.isDigit)
  let rest := cs.dropWhile (·.isDigit)
  match rest with
  | [] => if intPart.isEmpty then none else some (digitsVal intPart : Rat)
  | '.' :: frac =>
      if frac.all (·.isDigit) && !(intPart.isEmpty && frac.isEmpty) then
        some ((digitsVal intPart : Rat) + (digitsVal frac : Rat) / ((10 : Rat) ^ frac.length))
      else none
  | _ => none

/-- Parse an optional sign followed by a mantissa. -/
def parseSignedMantissa (cs : List Char) : Option Rat :=
  match cs with
  | '-' :: rest => (parseMantissa rest).map (fun q => -q)
  | '+' :: rest => parseMantissa rest
  | _ => parseMantissa cs

/-- Apply a decimal exponent to a rational. -/
def applyExp (q : Rat) (e : Int) : Rat :=
  if 0 ≤ e then q * (10 : Rat) ^ e.toNat else q / (10 : Rat) ^ (-e).toNat

/-- Parse an exponent part: optional sign then nonempty digits. -/
def parseExp (cs : List Char) : Option Int :=
  match cs with
  | '-' :: ds => if ds.isEmpty || !ds.all (·.isDigit) then none else some (-(digitsVal ds : Int))
  | '+' :: ds => if ds.isEmpty || !ds.all (·.isDigit) then none else some (digitsVal ds : Int)
  | ds => if ds.isEmpty || !ds.all (·.isDigit) then none else some (digitsVal ds : Int)

/-- JS `Number(string)` on the decimal-literal fragment: optional sign,
digits with optional fraction, optional `e`/`E` exponent; the empty (or
all-whitespace) string converts to `0`. Hex/octal/binary/`Infinity`
notations are treated as non-convertible (they do not arise here). -/
def jsStringToNumber (s : String) : Option Rat :=
  let cs := s.trim.toList
  if cs.isEmpty then some 0
  else
    let mant := cs.takeWhile (fun c => c ≠ 'e' ∧ c ≠ 'E')
    let rest := cs.dropWhile (fun c => c ≠ 'e' ∧ c ≠ 'E')
    match rest with
    | [] => parseSignedMantissa mant
    | _ :: es =>
        match parseSignedMantissa mant, parseExp es with
        | some q, some e => some (applyExp q e)
        | _, _ => none

/-- JS `Number()` coercion as invoked by `z.coerce.number()`. Arrays and
objects would go through JS object-to-primitive conversion; they are
modelled as non-convertible. A non-convertible input is JS `NaN`, which
`z.number()` then rejects. -/
def jsToNumber : JVal → Option Rat
  | .num q => some q
  | .str s => jsStringToNumber s
  | .boolv b => some (if b then 1 else 0)
  | .nullv => some 0
  | .arr _ => none
  | .obj _ => none

/-- One zod validation issue: path into the payload and a message. -/
structure ZIssue where
  path : List String
  message : String
deriving DecidableEq, Repr

/-- Look up a key in a JSON object's field list (first match wins, as in a
JS object after parsing). -/
def lookupField (fields : List (String × JVal)) (k : String) : Option JVal :=
  (fields.find? (fun f => f.1 == k)).map (·.2)

/-- JS-side type name of a JSON value, used in zod messages. -/
def jsTypeName : JVal → String
  | .num _ => "number"
  | .str _ => "string"
  | .boolv _ => "boolean"
  | .nullv => "null"
  | .arr _ => "array"
  | .obj _ => "object"

/-- `z.coerce.number()` on a present value: coerce, reject `NaN`. -/
def coerceNumber (k : String) (v : JVal) : Except ZIssue Rat :=
  match jsToNumber v with
  | some q => .ok q
  | none => .error ⟨[k], "Expected number, received nan"⟩

/-- A required `z.coerce.number()` field. On an absent key zod coerces
`undefined`, i.e. `Number(undefined) = NaN`, and rejects it. -/
def reqCoerceNum (fields : List (String × JVal)) (k : String) : Except ZIssue Rat :=
  match lookupField fields k with
  | none => .error ⟨[k], "Expected number, received nan"⟩
  | some v => coerceNumber k v

/-- An optional `z.coerce.number()` field: absent is accepted as `none`;
a present value (including `null`) is coerced. -/
def optCoerceNum (fields : List (String × JVal)) (k : String) : Except ZIssue (Option Rat) :=
  match lookupField fields k with
  | none => .ok none
  | some v => (coerceNumber k v).map some

/-- An optional `z.enum [...]` field. -/
def optEnum (fields : List (String × JVal)) (k : String) (lits : List String) :
    Except ZIssue (Option String) :=
  match lookupField fields k with
  | none => .ok none
  | some (.str s) =>
      if lits.contains s then .ok (some s)
      else .error ⟨[k], "Invalid enum value"⟩
  | some v => .error ⟨[k], "Invalid enum value, received " ++ jsTypeName v⟩

/-- An optional `z.string()` field. -/
def optString (fields : List (String × JVal)) (k : String) : Except ZIssue (Option String) :=
  match lookupField fields k with
  | none => .ok none
  | some (.str s) => .ok (some s)
  | some v => .error ⟨[k], "Expected string, received " ++ jsTypeName v⟩

/-- A required `z.string()` field. -/
def reqString (fields : List (String × JVal)) (k : String) : Except ZIssue String :=
  match lookupField fields k with
  | none => .error ⟨[k], "Required"⟩
  | some (.str s) => .ok s
  | some v => .error ⟨[k], "Expected string, received " ++ jsTypeName v⟩

/-- An optional nullable `z.string()` field: absent and `null` both yield
`none` (the inserted column is null either way). -/
def optNullableString (fields : List (String × JVal)) (k : String) :
    Except ZIssue (Option String) :=
  match lookupField fields k with
  | none => .ok none
  | some .nullv => .ok none
  | some (.str s) => .ok (some s)
  | some v => .error ⟨[k], "Expected string, received " ++ jsTypeName v⟩

/-- The issues of a single-issue field result. -/
def errsOf {α : Type} : Except ZIssue α → List ZIssue
  | .ok _ => []
  | .error e => [e]

/-- The issues of a multi-issue field result. -/
def errsOfL {α : Type} : Except (List ZIssue) α → List ZIssue
  | .ok _ => []
  | .error es => es

/-- One entry of the order schema's `products` array:
`{id: z.coerce.number(), quantity: z.coerce.number().int(), price: z.coerce.number()}`. -/
structure ProductEntry where
  id : Rat
  quantity : Rat
  price : Rat
deriving DecidableEq, Repr

/-- The parsed order payload (`orderSchema`'s output type). -/
structure OrderPayload where
  customerId : Rat
  paymentMethodId : Option Rat
  total : Rat
  status : Option String
  created_at : Option String
  products : List ProductEntry
deriving DecidableEq, Repr

/-- The parsed product payload (`productSchema`'s output type). -/
structure ProductPayload where
  name : String
  description : Option String
  price : Rat
  in_stock : Rat
  category : Option String
deriving DecidableEq, Repr

/-- Parse one element of the `products` array, indexed for the issue path. -/
def parseProductEntry (idx : Nat) : JVal → Except (List ZIssue) ProductEntry
  | .obj fs =>
      let i := reqCoerceNum fs "id"
      let q := reqCoerceNum fs "quantity"
      let p := reqCoerceNum fs "price"
      match i, q, p with
      | .ok iv, .ok qv, .ok pv =>
          if qv.den = 1 then .ok ⟨iv, qv, pv⟩
          else .error [⟨["products", toString idx, "quantity"],
            "Expected integer, received float"⟩]
      | _, _, _ =>
          .error ((errsOf i ++ errsOf q ++ errsOf p).map
            (fun z => ⟨"products" :: toString idx :: z.path, z.message⟩))
  | v => .error [⟨["products", toString idx], "Expected object, received " ++ jsTypeName v⟩]

/-- Parse the whole `products` field:
`z.array(...).optional().default([])`. -/
def parseProducts (fields : List (String × JVal)) : Except (List ZIssue) (List ProductEntry) :=
  match lookupField fields "products" with
  | none => .ok []
  | some (.arr xs) =>
      let results : List (Except (List ZIssue) ProductEntry) :=
        xs.enum.map (fun ei => parseProductEntry ei.1 ei.2)
      if results.all (fun r => (errsOfL r).isEmpty) then
        .ok (results.filterMap (fun r => match r with | .ok e => some e | .error _ => none))
      else
        .error (results.flatMap errsOfL)
  | some v => .error [⟨["products"], "Expected array, received " ++ jsTypeName v⟩]

/-- `orderSchema.safeParse`: validate a JSON body against

```
z.object({
  customerId: z.coerce.number(),
  paymentMethodId: z.coerce.number().optional(),
  total: z.coerce.number(),
  status: z.enum(['completed', 'pending', 'cancelled']).optional(),
  created_at: z.string().optional(),
  products: z.array(z.object({...})).optional().default([])
})
```

collecting every issue, as zod does. -/
def orderSchemaSafeParse (body : JVal) : Except (List ZIssue) OrderPayload :=
  match body with
  | .obj fields =>
      let cid := reqCoerceNum fields "customerId"
      let pmid := optCoerceNum fields "paymentMethodId"
      let tot := reqCoerceNum fields "total"
      let st := optEnum fields "status" ["completed", "pending", "cancelled"]
      let ca := optString fields "created_at"
      let prods := parseProducts fields
      match cid, pmid, tot, st, ca, prods with
      | .ok c, .ok pm, .ok t, .ok s, .ok cat, .ok pr => .ok ⟨c, pm, t, s, cat, pr⟩
      | _, _, _, _, _, _ =>
          .error (errsOf cid ++ errsOf pmid ++ errsOf tot ++ errsOf st ++ errsOf ca
            ++ errsOfL prods)
  | v => .error [⟨[], "Expected object, received " ++ jsTypeName v⟩]

/-- `productSchema.safeParse`: validate a JSON body against

```
z.object({
  name: z.string(),
  description: z.string().optional().nullable(),
  price: z.coerce.number(),
  in_stock: z.coerce.number().int(),
  category: z.string().optional().nullable(),
})
``` -/
def productSchemaSafeParse (body : JVal) : Except (List ZIssue) ProductPayload :=
  match body with
  | .obj fields =>
      let nm := reqString fields "name"
      let ds := optNullableString fields "description"
      let pr := reqCoerceNum fields "price"
      let ist :=
        match reqCoerceNum fields "in_stock" with
        | .ok q =>
            if q.den = 1 then Except.ok q
            else Except.error (⟨["in_stock"], "Expected integer, received float"⟩ : ZIssue)
        | .error e => Except.error e
      let ct := optNullableString fields "category"
      match nm, ds, pr, ist, ct with
      | .ok n, .ok d, .ok p, .ok i, .ok c => .ok ⟨n, d, p, i, c⟩
      | _, _, _, _, _ =>
          .error (errsOf nm ++ errsOf ds ++ errsOf pr ++ errsOf ist ++ errsOf ct)
  | v => .error [⟨[], "Expected object, received " ++ jsTypeName v⟩]

/-- `error.flatten()`: issues at the top level go to `formErrors`, issues
under a field go to `fieldErrors` keyed by the first path segment. -/
def flattenIssues (issues : List ZIssue) : JVal :=
  let formErrors := (issues.filter (fun z => z.path.isEmpty)).map (·.message)
  let keys := (issues.filterMap (fun z => z.path.head?)).dedup
  .obj [("formErrors", .arr (formErrors.map .str)),
        ("fieldErrors", .obj (keys.map (fun k =>
          (k, .arr (((issues.filter (fun z => z.path.head? == some k)).map (·.message)).map .str)))))]

/-- A persisted row of the `orders` table. `created_at` always holds a
value: on insert it is either the caller-supplied string or the
store-assigned default carried by the store state. -/
structure OrderRow where
  id : Nat
  customer_id : Rat
  total_amount : Rat
  user_uid : String
  status : String
  created_at : String
deriving DecidableEq, Repr

/-- A persisted row of the `order_items` table. -/
structure OrderItemRow where
  order_id : Nat
  product_id : Rat
  quantity : Rat
  price : Rat
deriving DecidableEq, Repr

/-- A persisted row of the `transactions` table. -/
structure TransactionRow where
  order_id : Nat
  payment_method_id : Rat
  amount : Rat
  user_uid : String
  status : String
  category : String
  type : String
  description : String
deriving DecidableEq, Repr

/-- A persisted row of the `products` table. -/
structure ProductRow where
  id : Nat
  user_uid : String
  name : String
  description : Option String
  price : Rat
  in_stock : Rat
  category : Option String
deriving DecidableEq, Repr

/-- A row of the `customers` table (only the joined `name` is read). -/
structure CustomerRow where
  id : Rat
  name : String
deriving DecidableEq, Repr

/-- The relational store: one list per table, the store-assigned id
counters, and the store-assigned `created_at` default value. -/
structure Store where
  orders : List OrderRow
  order_items : List OrderItemRow
  transactions : List TransactionRow
  products : List ProductRow
  customers : List CustomerRow
  nextOrderId : Nat
  nextProductId : Nat
  defaultCreatedAt : String
deriving DecidableEq, Repr

/-- Fault injection for the store: `some msg` makes that call fail with
error message `msg`; `none` lets it succeed. Deletes carry no fault slot
because the source ignores their results. -/
structure Faults where
  orderInsert : Option String
  itemsInsert : Option String
  txnInsert : Option String
  productInsert : Option String
  ordersSelect : Option String
  productsSelect : Option String
deriving DecidableEq, Repr

/-- All store calls succeed. -/
def noFaults : Faults := ⟨none, none, none, none, none, none⟩

/-- A store table operation, for the call trace. -/
inductive StoreOp where
  | insert (table : String)
  | select (table : String)
  | delete (table : String)
deriving DecidableEq, Repr

/-- An HTTP response: status code and JSON body. -/
structure HttpResponse where
  status : Nat
  body : JVal
deriving Repr

/-- Result of running a handler: a response, or an exception that escaped
the handler (never caught, so no HTTP response is produced by the route). -/
inductive Outcome where
  | response (r : HttpResponse)
  | uncaught (msg : String)
deriving Repr

/-- The fixed 401 response `NextResponse.json({ error: 'Unauthorized' }, { status: 401 })`. -/
def unauthorizedResponse : HttpResponse :=
  ⟨401, .obj [("error", .str "Unauthorized")]⟩

/-- A 500 response `NextResponse.json({ error: msg }, { status: 500 })`. -/
def serverErrorResponse (msg : String) : HttpResponse :=
  ⟨500, .obj [("error", .str msg)]⟩

/-- A 400 response `NextResponse.json({ error: 'Invalid request', details }, { status: 400 })`. -/
def invalidRequestResponse (issues : List ZIssue) : HttpResponse :=
  ⟨400, .obj [("error", .str "Invalid request"), ("details", flattenIssues issues)]⟩

/-- The message with which `request.json()` rejects on an unparseable body. -/
def jsonParseErrorMsg : String := "Unexpected token in JSON"

/-- The `orders` row built by the order insert:
`{customer_id, total_amount, user_uid: user.id, status: status ?? 'completed', ...(created_at ? { created_at } : {})}`.
The spread guard is JS truthiness, so an empty string falls back to the
store default just as an absent field does. -/
def orderRowOf (uid : String) (p : OrderPayload) (s : Store) : OrderRow :=
  { id := s.nextOrderId
    customer_id := p.customerId
    total_amount := p.total
    user_uid := uid
    status := p.status.getD "completed"
    created_at :=
      match p.created_at with
      | some c => if c = "" then s.defaultCreatedAt else c
      | none => s.defaultCreatedAt }

/-- The `order_items` rows: `products.map(product => ({order_id, product_id, quantity, price}))`. -/
def itemRowsOf (newId : Nat) (p : OrderPayload) : List OrderItemRow :=
  p.products.map (fun pr => ⟨newId, pr.id, pr.quantity, pr.price⟩)

/-- The `transactions` row inserted when `paymentMethodId` is truthy. -/
def txnRowOf (uid : String) (p : OrderPayload) (pm : Rat) (newId : Nat) : TransactionRow :=
  ⟨newId, pm, p.total, uid, "completed", "selling", "income",
    "Payment for order #" ++ toString newId⟩

/-- `supabase.from('orders').delete().eq('id', oid)`. -/
def deleteOrderById (s : Store) (oid : Nat) : Store :=
  { s with orders := s.orders.filter (fun r => r.id ≠ oid) }

/-- `supabase.from('order_items').delete().eq('order_id', oid)`. -/
def deleteItemsByOrderId (s : Store) (oid : Nat) : Store :=
  { s with order_items := s.order_items.filter (fun it => it.order_id ≠ oid) }

/-- Joined customer object of `select('*, customer:customers(name)')`:
the customer row matching `customer_id`, or SQL null when none matches. -/
def customerJoin (s : Store) (cid : Rat) : JVal :=
  match s.customers.find? (fun c => c.id == cid) with
  | some c => .obj [("name", .str c.name)]
  | none => .nullv

/-- Serialize the inserted order row (with the joined customer name) as the
success response body. -/
def serializeOrderRow (s : Store) (r : OrderRow) : JVal :=
  .obj [("id", .num (r.id : Rat)), ("customer_id", .num r.customer_id),
        ("total_amount", .num r.total_amount), ("user_uid", .str r.user_uid),
        ("status", .str r.status), ("created_at", .str r.created_at),
        ("customer", customerJoin s r.customer_id)]

/-- Success response of the order workflow: HTTP 200 with the inserted row
(serialized against the store at insert time, when the `.select` ran). -/
def orderSuccess (sAtInsert : Store) (row : OrderRow) (s : Store) (ops : List StoreOp) :
    Outcome × Store × List StoreOp :=
  (.response ⟨200, serializeOrderRow sAtInsert row⟩, s, ops)

/-- Step 3 of the order workflow: the transaction insert, guarded by JS
truthiness of `paymentMethodId` (`undefined`, `0` are falsy; `NaN` cannot
reach here). On failure: delete the order row, delete the order items if
any were inserted, and rethrow — caught as a 500. -/
def txnStep (uid : String) (p : OrderPayload) (f : Faults) (sAtInsert : Store)
    (row : OrderRow) (newId : Nat) (itemCount : Nat) (s : Store) (ops : List StoreOp) :
    Outcome × Store × List StoreOp :=
  match p.paymentMethodId with
  | none => orderSuccess sAtInsert row s ops
  | some pm =>
      if pm = 0 then orderSuccess sAtInsert row s ops
      else
        match f.txnInsert with
        | none =>
            orderSuccess sAtInsert row
              { s with transactions := s.transactions ++ [txnRowOf uid p pm newId] }
              (ops ++ [.insert "transactions"])
        | some msg =>
            let s1 := deleteOrderById s newId
            if itemCount > 0 then
              (.response (serverErrorResponse msg), deleteItemsByOrderId s1 newId,
                ops ++ [.insert "transactions", .delete "orders", .delete "order_items"])
            else
              (.response (serverErrorResponse msg), s1,
                ops ++ [.insert "transactions", .delete "orders"])

/-- The order creation workflow (the `try` block of `POST /orders`), given
an authenticated `uid` and a validated payload. -/
def orderWorkflow (uid : String) (p : OrderPayload) (f : Faults) (s : Store) :
    Outcome × Store × List StoreOp :=
  match f.orderInsert with
  | some msg => (.response (serverErrorResponse msg), s, [.insert "orders"])
  | none =>
      let newId := s.nextOrderId
      let row := orderRowOf uid p s
      let sAtInsert := { s with orders := s.orders ++ [row], nextOrderId := newId + 1 }
      let items := itemRowsOf newId p
      if items.length > 0 then
        match f.itemsInsert with
        | some msg =>
            (.response (serverErrorResponse msg), deleteOrderById sAtInsert newId,
              [.insert "orders", .insert "order_items", .delete "orders"])
        | none =>
            txnStep uid p f sAtInsert row newId items.length
              { sAtInsert with order_items := sAtInsert.order_items ++ items }
              [.insert "orders", .insert "order_items"]
      else
        txnStep uid p f sAtInsert row newId 0 sAtInsert [.insert "orders"]

/-- `POST /orders` (`src/app/api/orders/route.ts`, `POST`): auth guard,
`request.json()` (outside the `try`: a parse failure escapes the handler),
`orderSchema.safeParse`, then the workflow. -/
def ordersPOST (auth : Option String) (reqBody : Option JVal) (f : Faults) (s : Store) :
    Outcome × Store × List StoreOp :=
  match auth with
  | none => (.response unauthorizedResponse, s, [])
  | some uid =>
      match reqBody with
      | none => (.uncaught jsonParseErrorMsg, s, [])
      | some body =>
          match orderSchemaSafeParse body with
          | .error issues => (.response (invalidRequestResponse issues), s, [])
          | .ok p => orderWorkflow uid p f s

/-- The rows `GET /orders` reads: `from('orders').select(...).eq('user_uid', user.id)`. -/
def ordersGETrows (uid : String) (s : Store) : List OrderRow :=
  s.orders.filter (fun r => r.user_uid = uid)

/-- `GET /orders` (`src/app/api/orders/route.ts`, `GET`). -/
def ordersGET (auth : Option String) (f : Faults) (s : Store) :
    Outcome × Store × List StoreOp :=
  match auth with
  | none => (.response unauthorizedResponse, s, [])
  | some uid =>
      match f.ordersSelect with
      | some msg => (.response (serverErrorResponse msg), s, [.select "orders"])
      | none =>
          (.response ⟨200, .arr ((ordersGETrows uid s).map (serializeOrderRow s))⟩, s,
            [.select "orders"])

/-- The rows `GET /products` reads: `from('products').select('*').eq('user_uid', user.id)`. -/
def productsGETrows (uid : String) (s : Store) : List ProductRow :=
  s.products.filter (fun r => r.user_uid = uid)

/-- Serialize a product row as response JSON. -/
def serializeProductRow (r : ProductRow) : JVal :=
  .obj [("id", .num (r.id : Rat)), ("user_uid", .str r.user_uid),
        ("name", .str r.name),
        ("description", match r.description with | some d => .str d | none => .nullv),
        ("price", .num r.price), ("in_stock", .num r.in_stock),
        ("category", match r.category with | some c => .str c | none => .nullv)]

/-- `GET /products` (`src/app/api/products/route.ts`, `GET`). -/
def productsGET (auth : Option String) (f : Faults) (s : Store) :
    Outcome × Store × List StoreOp :=
  match auth with
  | none => (.response unauthorizedResponse, s, [])
  | some uid =>
      match f.productsSelect with
      | some msg => (.response (serverErrorResponse msg), s, [.select "products"])
      | none =>
          (.response ⟨200, .arr ((productsGETrows uid s).map serializeProductRow)⟩, s,
            [.select "products"])

/-- The `products` row built by `insert([{ ...newProduct, user_uid: user.id }])`. -/
def productRowOf (uid : String) (p : ProductPayload) (s : Store) : ProductRow :=
  ⟨s.nextProductId, uid, p.name, p.description, p.price, p.in_stock, p.category⟩

/-- `POST /products` (`src/app/api/products/route.ts`, `POST`): auth guard,
`request.json()` (no `try` anywhere: a parse failure escapes the handler),
`productSchema.safeParse`, single insert. -/
def productsPOST (auth : Option String) (reqBody : Option JVal) (f : Faults) (s : Store) :
    Outcome × Store × List StoreOp :=
  match auth with
  | none => (.response unauthorizedResponse, s, [])
  | some uid =>
      match reqBody with
      | none => (.uncaught jsonParseErrorMsg, s, [])
      | some body =>
          match productSchemaSafeParse body with
          | .error issues => (.response (invalidRequestResponse issues), s, [])
          | .ok p =>
              match f.productInsert with
              | some msg => (.response (serverErrorResponse msg), s, [.insert "products"])
              | none =>
                  let row := productRowOf uid p s
                  (.response ⟨200, serializeProductRow row⟩,
                    { s with products := s.products ++ [row],
                             nextProductId := s.nextProductId + 1 },
                    [.insert "products"])

/-! ## Helper lemmas and example fixtures -/

/-- An empty store whose next order id is 1. -/
def exEmptyStore : Store := ⟨[], [], [], [], [], 1, 1, "2024-01-01T00:00:00Z"⟩

/-- An example order row owned by user `"a"`. -/
def exOrderRowA : OrderRow := ⟨1, 1, 5, "a", "completed", "t0"⟩

/-- An example product row owned by user `"a"`. -/
def exProductRowA : ProductRow := ⟨1, "a", "widget", none, 2, 3, none⟩

/-- An example store holding one order and one product, both owned by `"a"`. -/
def exStoreA : Store := ⟨[exOrderRowA], [], [], [exProductRowA], [], 2, 2, "t0"⟩

theorem filter_orders_restore (l : List OrderRow) (row : OrderRow) (n : Nat)
    (h : ∀ r ∈ l, r.id ≠ n) (hrow : row.id = n) :
    (l ++ [row]).filter (fun r => r.id ≠ n) = l := by
  rw [List.filter_append]
  have h1 : l.filter (fun r => r.id ≠ n) = l :=
    List.filter_eq_self.mpr (fun r hr => by simpa using h r hr)
  have h2 : [row].filter (fun r => r.id ≠ n) = [] := by
    simp [List.filter, hrow]
  rw [h1, h2, List.append_nil]

theorem filter_items_restore (l items : List OrderItemRow) (n : Nat)
    (h : ∀ it ∈ l, it.order_id ≠ n) (hitems : ∀ it ∈ items, it.order_id = n) :
    (l ++ items).filter (fun it => it.order_id ≠ n) = l := by
  rw [List.filter_append]
  have h1 : l.filter (fun it => it.order_id ≠ n) = l :=
    List.filter_eq_self.mpr (fun it hit => by simpa using h it hit)
  have h2 : items.filter (fun it => it.order_id ≠ n) = [] := by
    rw [List.filter_eq_nil_iff]
    intro it hit
    simpa using hitems it hit
  rw [h1, h2, List.append_nil]

theorem itemRowsOf_order_id (n : Nat) (p : OrderPayload) :
    ∀ it ∈ itemRowsOf n p, it.order_id = n := by
  intro it hit
  simp only [itemRowsOf, List.mem_map] at hit
  obtain ⟨pr, _, rfl⟩ := hit
  rfl

/-! ## Claim theorems -/

/-- C4: with no resolvable identity, each of the four handlers returns the
fixed 401 Unauthorized response, leaves the store untouched, issues no
store table operation, and its result does not depend on the request body
(so no payload validation happens). -/
theorem c4_unauthenticated_401_no_store_access (body : Option JVal) (f : Faults) (s : Store) :
    ordersGET none f s = (.response unauthorizedResponse, s, []) ∧
    ordersPOST none body f s = (.response unauthorizedResponse, s, []) ∧
    productsGET none f s = (.response unauthorizedResponse, s, []) ∧
    productsPOST none body f s = (.response unauthorizedResponse, s, []) :=
  ⟨rfl, rfl, rfl, rfl⟩

/-- C10: for an authenticated POST whose body is not parseable as JSON, the
`request.json()` rejection escapes both handlers (outside the orders `try`,
with no `try` in products): no HTTP response at all is produced, in
particular neither a 400 nor a 500, and the store is untouched. -/
theorem c10_unparseable_body_escapes (uid : String) (f : Faults) (s : Store) :
    ordersPOST (some uid) none f s = (.uncaught jsonParseErrorMsg, s, []) ∧
    productsPOST (some uid) none f s = (.uncaught jsonParseErrorMsg, s, []) ∧
    (∀ r, (ordersPOST (some uid) none f s).1 ≠ Outcome.response r) ∧
    (∀ r, (productsPOST (some uid) none f s).1 ≠ Outcome.response r) :=
  ⟨rfl, rfl, fun _ h => Outcome.noConfusion h, fun _ h => Outcome.noConfusion h⟩

/-- C5: an authenticated POST whose body fails schema validation gets HTTP
400 with body `{ error: "Invalid request", details: <flattened field-error
map> }`, the store is untouched, and no store table operation is issued. -/
theorem c5_validation_failure_400_no_store_access
    (uid1 uid2 : String) (b1 b2 : JVal) (e1 e2 : List ZIssue) (f1 f2 : Faults) (s1 s2 : Store)
    (h1 : orderSchemaSafeParse b1 = .error e1)
    (h2 : productSchemaSafeParse b2 = .error e2) :
    ordersPOST (some uid1) (some b1) f1 s1 = (.response (invalidRequestResponse e1), s1, []) ∧
    productsPOST (some uid2) (some b2) f2 s2 = (.response (invalidRequestResponse e2), s2, []) := by
  constructor
  · simp only [ordersPOST, h1]
  · simp only [productsPOST, h2]

/-- Witness for C5 at the concrete empty-object bodies. -/
theorem c5_validation_failure_400_no_store_access_witness :
    ordersPOST (some "u") (some (.obj [])) noFaults exEmptyStore =
      (.response (invalidRequestResponse
        [⟨["customerId"], "Expected number, received nan"⟩,
         ⟨["total"], "Expected number, received nan"⟩]), exEmptyStore, []) ∧
    productsPOST (some "v") (some (.obj [])) noFaults exEmptyStore =
      (.response (invalidRequestResponse
        [⟨["name"], "Required"⟩,
         ⟨["price"], "Expected number, received nan"⟩,
         ⟨["in_stock"], "Expected number, received nan"⟩]), exEmptyStore, []) :=
  c5_validation_failure_400_no_store_access "u" "v" (.obj []) (.obj []) _ _
    noFaults noFaults exEmptyStore exEmptyStore rfl rfl

/-- C9: the list endpoints are scoped to the caller: every row returned by
`GET /orders` (resp. `GET /products`) has `user_uid` equal to the caller's
identity, the handlers return exactly those rows, and two distinct
identities never observe a common row. -/
theorem c9_reads_scoped_to_caller (uid uid2 : String) (s : Store) :
    (∀ r ∈ ordersGETrows uid s, r.user_uid = uid) ∧
    (∀ r ∈ productsGETrows uid s, r.user_uid = uid) ∧
    ordersGET (some uid) noFaults s =
      (.response ⟨200, .arr ((ordersGETrows uid s).map (serializeOrderRow s))⟩, s,
        [.select "orders"]) ∧
    productsGET (some uid) noFaults s =
      (.response ⟨200, .arr ((productsGETrows uid s).map serializeProductRow)⟩, s,
        [.select "products"]) ∧
    (uid ≠ uid2 → ∀ r ∈ ordersGETrows uid s, r ∉ ordersGETrows uid2 s) ∧
    (uid ≠ uid2 → ∀ r ∈ productsGETrows uid s, r ∉ productsGETrows uid2 s) := by
  have ho : ∀ r ∈ ordersGETrows uid s, r.user_uid = uid := by
    intro r hr
    simp only [ordersGETrows, List.mem_filter, decide_eq_true_eq] at hr
    exact hr.2
  have hp : ∀ r ∈ productsGETrows uid s, r.user_uid = uid := by
    intro r hr
    simp only [productsGETrows, List.mem_filter, decide_eq_true_eq] at hr
    exact hr.2
  refine ⟨ho, hp, rfl, rfl, ?_, ?_⟩
  · intro hne r hr hr2
    have h1 := ho r hr
    have h2 : r.user_uid = uid2 := by
      simp only [ordersGETrows, List.mem_filter, decide_eq_true_eq] at hr2
      exact hr2.2
    exact hne (h1 ▸ h2)
  · intro hne r hr hr2
    have h1 := hp r hr
    have h2 : r.user_uid = uid2 := by
      simp only [productsGETrows, List.mem_filter, decide_eq_true_eq] at hr2
      exact hr2.2
    exact hne (h1 ▸ h2)

/-- Witness for C9: user `"a"` sees their own row, and user `"b"` does not. -/
theorem c9_reads_scoped_to_caller_witness :
    exOrderRowA ∉ ordersGETrows "b" exStoreA ∧
    exProductRowA ∉ productsGETrows "b" exStoreA :=
  ⟨(c9_reads_scoped_to_caller "a" "b" exStoreA).2.2.2.2.1 (by decide) exOrderRowA (by decide),
   (c9_reads_scoped_to_caller "a" "b" exStoreA).2.2.2.2.2 (by decide) exProductRowA (by decide)⟩

theorem ordersPOST_parse_ok (uid : String) (body : JVal) (p : OrderPayload)
    (f : Faults) (s : Store) (hparse : orderSchemaSafeParse body = .ok p) :
    ordersPOST (some uid) (some body) f s = orderWorkflow uid p f s := by
  simp only [ordersPOST, hparse]

/-- C2: if the OrderItem insert step fails after the Order row was
inserted, the just-inserted Order row is deleted (the orders table is
restored, and a subsequent read finds no row with the new id), no order
items persist, and the response is HTTP 500 with the store error's
message. -/
theorem c2_items_failure_deletes_order
    (uid : String) (body : JVal) (p : OrderPayload) (msg : String)
    (f : Faults) (s : Store)
    (hparse : orderSchemaSafeParse body = .ok p)
    (hprod : p.products ≠ [])
    (hfo : f.orderInsert = none) (hfi : f.itemsInsert = some msg)
    (hwfO : ∀ r ∈ s.orders, r.id ≠ s.nextOrderId) :
    (ordersPOST (some uid) (some body) f s).1 = .response (serverErrorResponse msg) ∧
    ((ordersPOST (some uid) (some body) f s).2.1).orders = s.orders ∧
    ((ordersPOST (some uid) (some body) f s).2.1).order_items = s.order_items ∧
    (∀ r ∈ ordersGETrows uid ((ordersPOST (some uid) (some body) f s).2.1),
      r.id ≠ s.nextOrderId) := by
  have hred := ordersPOST_parse_ok uid body p f s hparse
  have hlen : (itemRowsOf s.nextOrderId p).length > 0 := by
    simp only [itemRowsOf, List.length_map]
    exact List.length_pos.mpr hprod
  have hwork : orderWorkflow uid p f s =
      (.response (serverErrorResponse msg),
        deleteOrderById
          { s with orders := s.orders ++ [orderRowOf uid p s],
                   nextOrderId := s.nextOrderId + 1 } s.nextOrderId,
        [.insert "orders", .insert "order_items", .delete "orders"]) := by
    simp only [orderWorkflow, hfo]
    rw [if_pos hlen]
    simp only [hfi]
  have hdel : (deleteOrderById
      { s with orders := s.orders ++ [orderRowOf uid p s],
               nextOrderId := s.nextOrderId + 1 } s.nextOrderId).orders = s.orders := by
    simp only [deleteOrderById]
    exact filter_orders_restore s.orders (orderRowOf uid p s) s.nextOrderId hwfO rfl
  rw [hred, hwork]
  refine ⟨rfl, hdel, rfl, ?_⟩
  intro r hr
  simp only [ordersGETrows, List.mem_filter] at hr
  have hmem : r ∈ s.orders := by
    rw [← hdel]
    exact hr.1
  exact hwfO r hmem

/-- Concrete fixtures for the C2 witness. -/
def c2Body : JVal := .obj [("customerId", .num 1), ("total", .num 5),
  ("products", .arr [.obj [("id", .num 1), ("quantity", .num 2), ("price", .num 3)]])]

def c2Payload : OrderPayload := ⟨1, none, 5, none, none, [⟨1, 2, 3⟩]⟩

def c2Faults : Faults := ⟨none, some "boom", none, none, none, none⟩

/-- Witness for C2 at a concrete one-item order against the empty store. -/
theorem c2_items_failure_deletes_order_witness :
    (ordersPOST (some "u") (some c2Body) c2Faults exEmptyStore).1 =
      .response (serverErrorResponse "boom") ∧
    ((ordersPOST (some "u") (some c2Body) c2Faults exEmptyStore).2.1).orders =
      exEmptyStore.orders ∧
    ((ordersPOST (some "u") (some c2Body) c2Faults exEmptyStore).2.1).order_items =
      exEmptyStore.order_items ∧
    (∀ r ∈ ordersGETrows "u" ((ordersPOST (some "u") (some c2Body) c2Faults exEmptyStore).2.1),
      r.id ≠ exEmptyStore.nextOrderId) :=
  c2_items_failure_deletes_order "u" c2Body c2Payload "boom" c2Faults exEmptyStore
    rfl (by decide) rfl rfl (by decide)

/-- C1: if the Transaction insert step fails after the Order row (and any
OrderItem rows) were inserted, both the Order row and all OrderItem rows
for that order are deleted (orders and order_items are restored), no
transaction persists, and the response is HTTP 500 with the store error's
message. -/
theorem c1_txn_failure_full_compensation
    (uid : String) (body : JVal) (p : OrderPayload) (pm : Rat) (msg : String)
    (f : Faults) (s : Store)
    (hparse : orderSchemaSafeParse body = .ok p)
    (hpm : p.paymentMethodId = some pm) (hpm0 : pm ≠ 0)
    (hfo : f.orderInsert = none) (hfi : f.itemsInsert = none) (hft : f.txnInsert = some msg)
    (hwfO : ∀ r ∈ s.orders, r.id ≠ s.nextOrderId)
    (hwfI : ∀ it ∈ s.order_items, it.order_id ≠ s.nextOrderId) :
    (ordersPOST (some uid) (some body) f s).1 = .response (serverErrorResponse msg) ∧
    ((ordersPOST (some uid) (some body) f s).2.1).orders = s.orders ∧
    ((ordersPOST (some uid) (some body) f s).2.1).order_items = s.order_items ∧
    ((ordersPOST (some uid) (some body) f s).2.1).transactions = s.transactions := by
  have hred := ordersPOST_parse_ok uid body p f s hparse
  rw [hred]
  by_cases hlen : (itemRowsOf s.nextOrderId p).length > 0
  · have hwork : orderWorkflow uid p f s =
        (.response (serverErrorResponse msg),
          deleteItemsByOrderId
            (deleteOrderById
              { s with orders := s.orders ++ [orderRowOf uid p s],
                       nextOrderId := s.nextOrderId + 1,
                       order_items := s.order_items ++ itemRowsOf s.nextOrderId p }
              s.nextOrderId)
            s.nextOrderId,
          [.insert "orders", .insert "order_items", .insert "transactions",
           .delete "orders", .delete "order_items"]) := by
      simp only [orderWorkflow, hfo]
      rw [if_pos hlen]
      simp only [hfi, txnStep, hpm]
      rw [if_neg hpm0]
      simp only [hft]
      rw [if_pos hlen]
      rfl
    rw [hwork]
    refine ⟨rfl, ?_, ?_, rfl⟩
    · simp only [deleteItemsByOrderId, deleteOrderById]
      exact filter_orders_restore s.orders (orderRowOf uid p s) s.nextOrderId hwfO rfl
    · simp only [deleteItemsByOrderId, deleteOrderById]
      exact filter_items_restore s.order_items (itemRowsOf s.nextOrderId p) s.nextOrderId
        hwfI (itemRowsOf_order_id s.nextOrderId p)
  · have hwork : orderWorkflow uid p f s =
        (.response (serverErrorResponse msg),
          deleteOrderById
            { s with orders := s.orders ++ [orderRowOf uid p s],
                     nextOrderId := s.nextOrderId + 1 }
            s.nextOrderId,
          [.insert "orders", .insert "transactions", .delete "orders"]) := by
      simp only [orderWorkflow, hfo]
      rw [if_neg hlen]
      simp only [txnStep, hpm]
      rw [if_neg hpm0]
      simp only [hft]
      rw [if_neg (lt_irrefl 0)]
      rfl
    rw [hwork]
    refine ⟨rfl, ?_, rfl, rfl⟩
    simp only [deleteOrderById]
    exact filter_orders_restore s.orders (orderRowOf uid p s) s.nextOrderId hwfO rfl

/-- Concrete fixtures for the C1 witness. -/
def c1Body : JVal := .obj [("customerId", .num 1), ("paymentMethodId", .num 2),
  ("total", .num 5),
  ("products", .arr [.obj [("id", .num 1), ("quantity", .num 2), ("price", .num 3)]])]

def c1Payload : OrderPayload := ⟨1, some 2, 5, none, none, [⟨1, 2, 3⟩]⟩

def c1Faults : Faults := ⟨none, none, some "tboom", none, none, none⟩

/-- Witness for C1 at a concrete one-item paid order against the empty store. -/
theorem c1_txn_failure_full_compensation_witness :
    (ordersPOST (some "u") (some c1Body) c1Faults exEmptyStore).1 =
      .response (serverErrorResponse "tboom") ∧
    ((ordersPOST (some "u") (some c1Body) c1Faults exEmptyStore).2.1).orders =
      exEmptyStore.orders ∧
    ((ordersPOST (some "u") (some c1Body) c1Faults exEmptyStore).2.1).order_items =
      exEmptyStore.order_items ∧
    ((ordersPOST (some "u") (some c1Body) c1Faults exEmptyStore).2.1).transactions =
      exEmptyStore.transactions :=
  c1_txn_failure_full_compensation "u" c1Body c1Payload 2 "tboom" c1Faults exEmptyStore
    rfl rfl (by decide) rfl rfl rfl (by decide) (by decide)

/-- Concrete fixtures for the C3 counterexample: a valid payload in which
`paymentMethodId` is supplied with the value `0`. -/
def c3Body : JVal := .obj [("customerId", .num 1), ("paymentMethodId", .num 0),
  ("total", .num 5)]

def c3Payload : OrderPayload := ⟨1, some 0, 5, none, none, []⟩

/-- C3 counterexample: `paymentMethodId: 0` passes validation (it is
supplied), the workflow succeeds with HTTP 200, yet no Transaction row is
inserted — the source guards the insert with JS truthiness
(`if (paymentMethodId)`), and `0` is falsy. -/
theorem c3_counterexample_zero_paymentMethodId :
    orderSchemaSafeParse c3Body = .ok c3Payload ∧
    c3Payload.paymentMethodId = some 0 ∧
    ((ordersPOST (some "u") (some c3Body) noFaults exEmptyStore).2.1).transactions = [] ∧
    (ordersPOST (some "u") (some c3Body) noFaults exEmptyStore).2.2 =
      [StoreOp.insert "orders"] :=
  ⟨rfl, rfl, rfl, rfl⟩

/-- C3 (amended): for a valid order payload processed without store
faults, when `paymentMethodId` is supplied and *nonzero* exactly one
Transaction row is inserted — referencing the new Order id and the
authenticated user, with amount equal to the order total, status
"completed", category "selling", type "income", and description
"Payment for order #<order id>"; when `paymentMethodId` is absent or
zero, no Transaction row is inserted. -/
theorem c3_transaction_iff_truthy_paymentMethodId
    (uid : String) (body : JVal) (p : OrderPayload) (f : Faults) (s : Store)
    (hparse : orderSchemaSafeParse body = .ok p)
    (hfo : f.orderInsert = none) (hfi : f.itemsInsert = none) (hft : f.txnInsert = none) :
    (∀ pm, p.paymentMethodId = some pm → pm ≠ 0 →
      ((ordersPOST (some uid) (some body) f s).2.1).transactions =
        s.transactions ++ [⟨s.nextOrderId, pm, p.total, uid, "completed", "selling",
          "income", "Payment for order #" ++ toString s.nextOrderId⟩]) ∧
    ((p.paymentMethodId = none ∨ p.paymentMethodId = some 0) →
      ((ordersPOST (some uid) (some body) f s).2.1).transactions = s.transactions) := by
  have hred := ordersPOST_parse_ok uid body p f s hparse
  rw [hred]
  constructor
  · intro pm hpm hpm0
    by_cases hlen : (itemRowsOf s.nextOrderId p).length > 0
    · have hwork : orderWorkflow uid p f s =
          txnStep uid p f
            { s with orders := s.orders ++ [orderRowOf uid p s],
                     nextOrderId := s.nextOrderId + 1 }
            (orderRowOf uid p s) s.nextOrderId (itemRowsOf s.nextOrderId p).length
            { s with orders := s.orders ++ [orderRowOf uid p s],
                     nextOrderId := s.nextOrderId + 1,
                     order_items := s.order_items ++ itemRowsOf s.nextOrderId p }
            [.insert "orders", .insert "order_items"] := by
        simp only [orderWorkflow, hfo]
        rw [if_pos hlen]
        simp only [hfi]
      rw [hwork]
      simp only [txnStep, hpm]
      rw [if_neg hpm0]
      simp only [hft, orderSuccess, txnRowOf]
    · have hwork : orderWorkflow uid p f s =
          txnStep uid p f
            { s with orders := s.orders ++ [orderRowOf uid p s],
                     nextOrderId := s.nextOrderId + 1 }
            (orderRowOf uid p s) s.nextOrderId 0
            { s with orders := s.orders ++ [orderRowOf uid p s],
                     nextOrderId := s.nextOrderId + 1 }
            [.insert "orders"] := by
        simp only [orderWorkflow, hfo]
        rw [if_neg hlen]
      rw [hwork]
      simp only [txnStep, hpm]
      rw [if_neg hpm0]
      simp only [hft, orderSuccess, txnRowOf]
  · intro hpm
    by_cases hlen : (itemRowsOf s.nextOrderId p).length > 0 <;>
      rcases hpm with hpm | hpm
    · have hwork : orderWorkflow uid p f s =
          txnStep uid p f
            { s with orders := s.orders ++ [orderRowOf uid p s],
                     nextOrderId := s.nextOrderId + 1 }
            (orderRowOf uid p s) s.nextOrderId (itemRowsOf s.nextOrderId p).length
            { s with orders := s.orders ++ [orderRowOf uid p s],
                     nextOrderId := s.nextOrderId + 1,
                     order_items := s.order_items ++ itemRowsOf s.nextOrderId p }
            [.insert "orders", .insert "order_items"] := by
        simp only [orderWorkflow, hfo]
        rw [if_pos hlen]
        simp only [hfi]
      rw [hwork]
      simp only [txnStep, hpm, orderSuccess]
    · have hwork : orderWorkflow uid p f s =
          txnStep uid p f
            { s with orders := s.orders ++ [orderRowOf uid p s],
                     nextOrderId := s.nextOrderId + 1 }
            (orderRowOf uid p s) s.nextOrderId (itemRowsOf s.nextOrderId p).length
            { s with orders := s.orders ++ [orderRowOf uid p s],
                     nextOrderId := s.nextOrderId + 1,
                     order_items := s.order_items ++ itemRowsOf s.nextOrderId p }
            [.insert "orders", .insert "order_items"] := by
        simp only [orderWorkflow, hfo]
        rw [if_pos hlen]
        simp only [hfi]
      rw [hwork]
      simp [txnStep, hpm, orderSuccess]
    · have hwork : orderWorkflow uid p f s =
          txnStep uid p f
            { s with orders := s.orders ++ [orderRowOf uid p s],
                     nextOrderId := s.nextOrderId + 1 }
            (orderRowOf uid p s) s.nextOrderId 0
            { s with orders := s.orders ++ [orderRowOf uid p s],
                     nextOrderId := s.nextOrderId + 1 }
            [.insert "orders"] := by
        simp only [orderWorkflow, hfo]
        rw [if_neg hlen]
      rw [hwork]
      simp only [txnStep, hpm, orderSuccess]
    · have hwork : orderWorkflow uid p f s =
          txnStep uid p f
            { s with orders := s.orders ++ [orderRowOf uid p s],
                     nextOrderId := s.nextOrderId + 1 }
            (orderRowOf uid p s) s.nextOrderId 0
            { s with orders := s.orders ++ [orderRowOf uid p s],
                     nextOrderId := s.nextOrderId + 1 }
            [.insert "orders"] := by
        simp only [orderWorkflow, hfo]
        rw [if_neg hlen]
      rw [hwork]
      simp [txnStep, hpm, orderSuccess]

/-- Concrete fixtures for the witness of amended C3. -/
def c3OkBody : JVal := .obj [("customerId", .num 1), ("paymentMethodId", .num 3),
  ("total", .num 5)]

def c3OkPayload : OrderPayload := ⟨1, some 3, 5, none, none, []⟩

/-- Witness for amended C3 at a concrete order paid with method 3. -/
theorem c3_transaction_iff_truthy_paymentMethodId_witness :
    ((ordersPOST (some "u") (some c3OkBody) noFaults exEmptyStore).2.1).transactions =
      exEmptyStore.transactions ++ [⟨exEmptyStore.nextOrderId, 3, c3OkPayload.total, "u",
        "completed", "selling", "income",
        "Payment for order #" ++ toString exEmptyStore.nextOrderId⟩] :=
  (c3_transaction_iff_truthy_paymentMethodId "u" c3OkBody c3OkPayload noFaults exEmptyStore
    rfl rfl rfl rfl).1 3 rfl (by decide)

theorem orderWorkflow_noFaults_orders (uid : String) (p : OrderPayload) (s : Store) :
    ((orderWorkflow uid p noFaults s).2.1).orders = s.orders ++ [orderRowOf uid p s] := by
  have htxn : ∀ (sAt s2 : Store) (ops : List StoreOp) (n cnt : Nat),
      s2.orders = s.orders ++ [orderRowOf uid p s] →
      ((txnStep uid p noFaults sAt (orderRowOf uid p s) n cnt s2 ops).2.1).orders =
        s.orders ++ [orderRowOf uid p s] := by
    intro sAt s2 ops n cnt h2
    cases hpm : p.paymentMethodId with
    | none => simpa [txnStep, hpm, orderSuccess] using h2
    | some pm =>
        by_cases hz : pm = 0
        · subst hz
          simpa [txnStep, hpm, orderSuccess] using h2
        · simpa [txnStep, hpm, hz, orderSuccess, noFaults] using h2
  by_cases hlen : (itemRowsOf s.nextOrderId p).length > 0
  · simp only [orderWorkflow, noFaults]
    rw [if_pos hlen]
    exact htxn _ _ _ _ _ rfl
  · simp only [orderWorkflow, noFaults]
    rw [if_neg hlen]
    exact htxn _ _ _ _ _ rfl

/-- C6: for an authenticated, validated order request, the inserted Order
row carries `user_uid` equal to the authenticated identity and status
defaulted to "completed" exactly when the payload omits it; if the first
insert fails, the handler responds 500 with the store error's message,
issues no delete, and leaves the store unchanged. -/
theorem c6_order_insert_fields_and_failure_behavior
    (uid : String) (body : JVal) (p : OrderPayload) (msg : String) (f : Faults) (s : Store)
    (hparse : orderSchemaSafeParse body = .ok p) :
    (f.orderInsert = some msg →
      ordersPOST (some uid) (some body) f s =
        (.response (serverErrorResponse msg), s, [.insert "orders"])) ∧
    (f = noFaults →
      ((ordersPOST (some uid) (some body) f s).2.1).orders =
        s.orders ++ [orderRowOf uid p s]) ∧
    (orderRowOf uid p s).user_uid = uid ∧
    (p.status = none → (orderRowOf uid p s).status = "completed") ∧
    (∀ st, p.status = some st → (orderRowOf uid p s).status = st) := by
  have hred := ordersPOST_parse_ok uid body p f s hparse
  refine ⟨?_, ?_, rfl, ?_, ?_⟩
  · intro hfo
    rw [hred]
    simp only [orderWorkflow, hfo]
  · intro hf
    subst hf
    rw [hred]
    exact orderWorkflow_noFaults_orders uid p s
  · intro h
    simp [orderRowOf, h]
  · intro st h
    simp [orderRowOf, h]

/-- Concrete fixtures for the C6 witness. -/
def c6Body : JVal := .obj [("customerId", .num 1), ("total", .num 5)]

def c6Payload : OrderPayload := ⟨1, none, 5, none, none, []⟩

def c6Faults : Faults := ⟨some "oboom", none, none, none, none, none⟩

/-- Witness for C6: a failing first insert leaves the empty store
untouched with no delete issued, and the row's status defaults. -/
theorem c6_order_insert_fields_and_failure_behavior_witness :
    ordersPOST (some "u") (some c6Body) c6Faults exEmptyStore =
      (.response (serverErrorResponse "oboom"), exEmptyStore, [.insert "orders"]) ∧
    (orderRowOf "u" c6Payload exEmptyStore).status = "completed" :=
  ⟨(c6_order_insert_fields_and_failure_behavior "u" c6Body c6Payload "oboom" c6Faults
      exEmptyStore rfl).1 rfl,
   (c6_order_insert_fields_and_failure_behavior "u" c6Body c6Payload "oboom" c6Faults
      exEmptyStore rfl).2.2.2.1 rfl⟩

/-- Concrete fixtures for the C7 counterexample: a valid payload whose
`created_at` is the empty string. -/
def c7Body : JVal := .obj [("customerId", .num 1), ("total", .num 5),
  ("created_at", .str "")]

def c7Payload : OrderPayload := ⟨1, none, 5, none, some "", []⟩

/-- C7 counterexample: `created_at: ""` is a caller-provided string that
passes validation, yet the inserted row carries the store-assigned default
instead of the supplied value — the source spreads the field under a JS
truthiness guard (`created_at ? { created_at } : {}`), and `""` is falsy. -/
theorem c7_counterexample_empty_created_at :
    orderSchemaSafeParse c7Body = .ok c7Payload ∧
    c7Payload.created_at = some "" ∧
    ((ordersPOST (some "u") (some c7Body) noFaults exEmptyStore).2.1).orders =
      [⟨1, 1, 5, "u", "completed", "2024-01-01T00:00:00Z"⟩] ∧
    ("2024-01-01T00:00:00Z" : String) ≠ "" :=
  ⟨rfl, rfl, rfl, by decide⟩

/-- C7 (amended): a valid payload providing a *non-empty* `created_at`
string has the row inserted with exactly that value; when `created_at` is
absent or empty, the store-assigned default is used. -/
theorem c7_created_at_caller_value_iff_nonempty
    (uid : String) (body : JVal) (p : OrderPayload) (f : Faults) (s : Store)
    (hparse : orderSchemaSafeParse body = .ok p) :
    (∀ c, p.created_at = some c → c ≠ "" → (orderRowOf uid p s).created_at = c) ∧
    ((p.created_at = none ∨ p.created_at = some "") →
      (orderRowOf uid p s).created_at = s.defaultCreatedAt) ∧
    (f = noFaults →
      ((ordersPOST (some uid) (some body) f s).2.1).orders =
        s.orders ++ [orderRowOf uid p s]) := by
  refine ⟨?_, ?_, ?_⟩
  · intro c hc hne
    simp [orderRowOf, hc, hne]
  · rintro (hc | hc) <;> simp [orderRowOf, hc]
  · intro hf
    subst hf
    rw [ordersPOST_parse_ok uid body p noFaults s hparse]
    exact orderWorkflow_noFaults_orders uid p s

/-- Concrete fixtures for the witness of amended C7. -/
def c7OkBody : JVal := .obj [("customerId", .num 1), ("total", .num 5),
  ("created_at", .str "2020-05-05")]

def c7OkPayload : OrderPayload := ⟨1, none, 5, none, some "2020-05-05", []⟩

/-- Witness for amended C7 at a concrete non-empty `created_at`. -/
theorem c7_created_at_caller_value_iff_nonempty_witness :
    (orderRowOf "u" c7OkPayload exEmptyStore).created_at = "2020-05-05" :=
  (c7_created_at_caller_value_iff_nonempty "u" c7OkBody c7OkPayload noFaults exEmptyStore
    rfl).1 "2020-05-05" rfl (by decide)

theorem parseProductEntry_quantity_int (idx : Nat) (v : JVal) (e : ProductEntry)
    (h : parseProductEntry idx v = .ok e) : e.quantity.den = 1 := by
  cases v with
  | obj fs =>
      simp only [parseProductEntry] at h
      split at h
      · split at h
        · rename_i hden
          cases h
          exact hden
        · exact Except.noConfusion h
      · exact Except.noConfusion h
  | num q => exact Except.noConfusion h
  | str s => exact Except.noConfusion h
  | boolv b => exact Except.noConfusion h
  | nullv => exact Except.noConfusion h
  | arr xs => exact Except.noConfusion h

theorem parseProducts_quantity_int (fields : List (String × JVal)) (l : List ProductEntry)
    (h : parseProducts fields = .ok l) : ∀ e ∈ l, e.quantity.den = 1 := by
  intro e he
  simp only [parseProducts] at h
  split at h
  · cases h
    cases he
  · split at h
    · cases h
      simp only [List.mem_filterMap] at he
      obtain ⟨r, hr, hfr⟩ := he
      simp only [List.mem_map] at hr
      obtain ⟨x, _, rfl⟩ := hr
      cases hpe : parseProductEntry x.1 x.2 with
      | ok e2 =>
          rw [hpe] at hfr
          cases hfr
          exact parseProductEntry_quantity_int x.1 x.2 e hpe
      | error es =>
          rw [hpe] at hfr
          cases hfr
    · exact absurd h (by simp)
  · exact absurd h (by simp)

/-- C8 (amended): the order validator accepts a products entry only if its
quantity coerces to an integer (its rational value has denominator 1) —
there is no sign constraint — and consequently every OrderItem row built by
the workflow from a validated payload has an integer quantity. -/
theorem c8_accepted_quantity_is_integer
    (body : JVal) (p : OrderPayload)
    (hparse : orderSchemaSafeParse body = .ok p) :
    (∀ e ∈ p.products, e.quantity.den = 1) ∧
    (∀ n : Nat, ∀ it ∈ itemRowsOf n p, it.quantity.den = 1) := by
  have hmain : ∀ e ∈ p.products, e.quantity.den = 1 := by
    cases body with
    | obj fields =>
        simp only [orderSchemaSafeParse] at hparse
        split at hparse
        · cases hparse
          rename_i hprods
          exact parseProducts_quantity_int fields _ hprods
        · exact Except.noConfusion hparse
    | num q => exact Except.noConfusion hparse
    | str s => exact Except.noConfusion hparse
    | boolv b => exact Except.noConfusion hparse
    | nullv => exact Except.noConfusion hparse
    | arr xs => exact Except.noConfusion hparse
  refine ⟨hmain, ?_⟩
  intro n it hit
  simp only [itemRowsOf, List.mem_map] at hit
  obtain ⟨pr, hpr, rfl⟩ := hit
  exact hmain pr hpr

/-- Concrete fixtures for the C8 counterexample: a products entry with
quantity `-1`. -/
def c8Body : JVal := .obj [("customerId", .num 1), ("total", .num 5),
  ("products", .arr [.obj [("id", .num 1), ("quantity", .num (-1)), ("price", .num 2)]])]

def c8Payload : OrderPayload := ⟨1, none, 5, none, none, [⟨1, -1, 2⟩]⟩

/-- C8 counterexample: the validator accepts quantity `-1` (the schema is
`z.coerce.number().int()` with no lower bound), and the workflow persists
an OrderItem row with that negative quantity. -/
theorem c8_counterexample_negative_quantity :
    orderSchemaSafeParse c8Body = .ok c8Payload ∧
    c8Payload.products = [⟨1, -1, 2⟩] ∧
    ((-1 : Rat) < 0) ∧
    ((ordersPOST (some "u") (some c8Body) noFaults exEmptyStore).2.1).order_items =
      [⟨1, 1, -1, 2⟩] :=
  ⟨rfl, rfl, by decide, rfl⟩

/-- Concrete fixtures for the witness of amended C8. -/
def c8OkBody : JVal := .obj [("customerId", .num 1), ("total", .num 5),
  ("products", .arr [.obj [("id", .num 4), ("quantity", .num 2), ("price", .num 3)]])]

def c8OkPayload : OrderPayload := ⟨1, none, 5, none, none, [⟨4, 2, 3⟩]⟩

/-- Witness for amended C8 at a concrete accepted entry. -/
theorem c8_accepted_quantity_is_integer_witness :
    (⟨4, 2, 3⟩ : ProductEntry).quantity.den = 1 :=
  (c8_accepted_quantity_is_integer c8OkBody c8OkPayload rfl).1 ⟨4, 2, 3⟩ (by decide)
